import Mathlib

/-!
Shallow embedding of `src/sygscripts/claims_processor.py` (the Batch Claims
Orchestrator of the fb-glacier-sdk repository) and verification of the
frozen claims about it.

Remote HTTP traffic is modelled by an oracle environment: each client
operation receives the response the remote service would give (either a
classified failure or a parsed body), and the Lean function reproduces the
Python function's handling of that response.  Per-record state
(dictionaries keyed by account id), the batch loops, the sink flushes and
the running counters are embedded exactly as the source writes them,
including the duplicated batch loop in `process_claims_csv`
(lines 274-461 and then again 464-634).
-/

namespace ClaimsProcessor

/-- The failure classification shared by every client operation: a non-200
status observed inside the response block, a raised `HTTPError`, a
transport-level `URLError`, a `JSONDecodeError`, a `ValueError`/`KeyError`
while converting fields, or the catch-all `Exception` branch. -/
inductive Failure where
  | httpStatus
  | httpError
  | transportError
  | malformedBody
  | dataError
  | unexpected
  deriving DecidableEq, Repr

/-- A remote response: either a classified failure or a parsed body. -/
abbrev Resp (α : Type) := Except Failure α

/-- The body of an eligibility response, as the Python code inspects it:
the `value` field may be absent, JSON `null`, present but not convertible
by `float(...)`, or a number. -/
inductive EligValue where
  | absent
  | null
  | nonNumeric
  | num (v : ℚ)
  deriving DecidableEq, Repr

/-- Embeds `check_address_eligibility` (claims_processor.py lines 11-61): on a 200
response with a present, non-null, numeric `value`, returns the value when
it is `> 0` and `None` otherwise; every other response shape and every
exception branch returns `None`. -/
def check_address_eligibility (resp : Resp EligValue) : Option ℚ :=
  match resp with
  | .ok (.num v) => if v > 0 then some v else none
  | .ok .absent => none
  | .ok .null => none
  | .ok .nonNumeric => none
  | .error _ => none

/-- Embeds `check_claims_history` (lines 63-105): on a 200 response whose parsed
body is a (possibly empty) list, returns that list (an empty or null body
yields `[]`); every failure branch returns `None`.  Claim entries are
opaque; we model them as strings.  A JSON `null` body is `Except.ok none`. -/
def check_claims_history (resp : Resp (Option (List String))) : Option (List String) :=
  match resp with
  | .ok (some claims) => some claims
  | .ok none => some []
  | .error _ => none

/-- Embeds `make_claim` (lines 107-152): on a 200 response returns the parsed
payload (opaque, modelled as a string); every failure branch returns
`None`. -/
def make_claim (resp : Resp String) : Option String :=
  match resp with
  | .ok result => some result
  | .error _ => none

/-- Python `int(...)` on a rational: truncation toward zero
(`Int.tdiv` is truncating division). -/
def pyTrunc (q : ℚ) : ℤ :=
  q.num.tdiv q.den

/-- The parsed `/metrics` body: the `totalInstances` field may be absent
(`metrics.get('totalInstances', 0)` then defaults to 0). -/
structure PoolMetrics where
  totalInstances : Option ℤ
  deriving DecidableEq, Repr

/-- Embeds `check_and_clear_pool_if_needed` (lines 204-229), with the metrics
fetch and the `clear_pool` call supplied by the oracle: an empty/failed
metrics dict (`none`) is a no-op returning false; otherwise
`threshold = int(pool_max_size * threshold_percent / 100.0)` and the pool
is cleared (returning `clear_pool`'s result) iff
`totalInstances >= threshold`. -/
def check_and_clear_pool_if_needed (metrics : Option PoolMetrics) (clearResult : Bool)
    (pool_max_size : ℤ) (threshold_percent : ℚ) : Bool :=
  match metrics with
  | none => false
  | some m =>
    let total_instances : ℤ := m.totalInstances.getD 0
    let threshold : ℤ := pyTrunc ((pool_max_size : ℚ) * threshold_percent / 100)
    if total_instances ≥ threshold then clearResult else false

/-- The batch slicing of `process_claims_csv`
(`for i in range(0, len(all_rows), batch_size): all_rows[i:i + batch_size]`,
lines 274-275 and 464-465), for a positive step: successive contiguous
slices of `bs` elements, the last possibly shorter. -/
def planBatches (bs : ℕ) (xs : List α) : List (List α) :=
  if h : xs.length = 0 ∨ bs = 0 then []
  else xs.take bs :: planBatches bs (xs.drop bs)
termination_by xs.length
decreasing_by
  simp only [not_or] at h
  have h1 : 0 < bs := Nat.pos_of_ne_zero h.2
  simp only [List.length_drop]
  omega

/-- One input CSV row as `csv.DictReader` delivers it: the four column
values as raw strings (the code applies `.strip()` when reading each). -/
structure Row where
  accountId : String
  accountName : String
  assetId : String
  claimableAmount : String
  deriving DecidableEq, Repr

/-- The `Claimable Amount` cell of an output row: either the original
input string (unclaimable rows) or `str(claimable_value)` for eligible
rows (kept as the rational itself; Python's decimal rendering is
presentation only). -/
inductive AmountField where
  | orig (s : String)
  | updated (v : ℚ)
  deriving DecidableEq, Repr

/-- One output row (`updated_row`, lines 410-418 / 587-595). -/
structure ResultRow where
  accountId : String
  accountName : String
  assetId : String
  claimableAmount : AmountField
  eligibilityStatus : String
  claimStatus : String
  claimResult : String
  deriving DecidableEq, Repr

/-- The run's mutable counters (lines 245-249): cumulative totals across
all batches (and, in the source, across both copies of the batch loop). -/
structure Counters where
  processed : ℕ
  eligible : ℕ
  alreadyClaimed : ℕ
  claimed : ℕ
  unclaimable : ℕ
  deriving DecidableEq, Repr

def Counters.zero : Counters := ⟨0, 0, 0, 0, 0⟩

def Counters.add (a b : Counters) : Counters :=
  ⟨a.processed + b.processed, a.eligible + b.eligible,
   a.alreadyClaimed + b.alreadyClaimed, a.claimed + b.claimed,
   a.unclaimable + b.unclaimable⟩

/-- Python dict assignment `d[k] = v`: overwrite the existing entry for
`k` in place, else append a new entry. -/
def dictSet (d : List (String × α)) (k : String) (v : α) : List (String × α) :=
  if d.any (fun p => p.1 == k) then
    d.map (fun p => if p.1 == k then (k, v) else p)
  else d ++ [(k, v)]

/-- Python `d.get(k)` on a dict whose values are themselves
`None`-or-payload: a missing key and a stored `None` both read as `None`. -/
def pyGet (d : List (String × Option α)) (k : String) : Option α :=
  (((d.find? (fun p => p.1 == k)).map (fun p => p.2)).getD none)

/-- Python `str.strip()`: remove leading and trailing whitespace. -/
def pyStrip (s : String) : String :=
  ⟨((s.data.dropWhile Char.isWhitespace).reverse.dropWhile Char.isWhitespace).reverse⟩

/-- The oracle environment standing for the remote service: the response
each client operation would receive, keyed by (accountId, chain).  The
run is deterministic given the environment. -/
structure Env where
  eligResp : String → String → Resp EligValue
  histResp : String → String → Resp (Option (List String))
  claimResp : String → String → Resp String

/-- Phase 1 sweep (lines 296-311 / 486-498): build
`eligibility_results`, keyed by the stripped account id; rows with an
empty id or chain store `None`, others store
`check_address_eligibility`'s result. -/
def phase1 (env : Env) (batch : List Row) : List (String × Option ℚ) :=
  batch.foldl
    (fun d row =>
      let vault_account_id := pyStrip row.accountId
      let blockchain := pyStrip row.assetId
      if vault_account_id = "" ∨ blockchain = "" then
        dictSet d vault_account_id none
      else
        dictSet d vault_account_id (check_address_eligibility (env.eligResp vault_account_id blockchain)))
    []

/-- Phase 2 sweep (lines 322-343 / 508-525): build
`claims_history_results`; invalid rows and rows whose phase-1 lookup is
`None` store `None` without a remote call, the rest store
`check_claims_history`'s result. -/
def phase2 (env : Env) (batch : List Row) (elig : List (String × Option ℚ)) :
    List (String × Option (List String)) :=
  batch.foldl
    (fun d row =>
      let vault_account_id := pyStrip row.accountId
      let blockchain := pyStrip row.assetId
      if vault_account_id = "" ∨ blockchain = "" then
        dictSet d vault_account_id none
      else
        match pyGet elig vault_account_id with
        | none => dictSet d vault_account_id none
        | some _ => dictSet d vault_account_id (check_claims_history (env.histResp vault_account_id blockchain)))
    []

/-- The per-record phase-3 outcome (§4.4 of the spec). -/
inductive ClaimOutcome where
  | skipped
  | errorCheckingClaims
  | alreadyClaimed
  | claimedSuccessfully (payload : String)
  | claimFailed
  deriving DecidableEq, Repr

/-- The phase-3 decision (lines 376-407 / 553-584) for one valid record,
given its phase-1 value, its phase-2 history, and the response
`submitClaim` would get; the boolean records whether `make_claim` was
invoked. -/
def phase3Decide (claimableValue : Option ℚ) (history : Option (List String))
    (submitResp : Resp String) : ClaimOutcome × Bool :=
  match claimableValue with
  | none => (.skipped, false)
  | some _ =>
    match history with
    | none => (.errorCheckingClaims, false)
    | some claims_history =>
      if claims_history.length > 0 then (.alreadyClaimed, false)
      else
        match make_claim submitResp with
        | some payload => (.claimedSuccessfully payload, true)
        | none => (.claimFailed, true)

/-- The `Claim Status` string the source writes for each outcome. -/
def ClaimOutcome.statusString : ClaimOutcome → String
  | .skipped => "Skipped"
  | .errorCheckingClaims => "Error Checking Claims"
  | .alreadyClaimed => "Already Claimed"
  | .claimedSuccessfully _ => "Claimed Successfully"
  | .claimFailed => "Claim Failed"

/-- The `Claim Result` string the source writes for each outcome
(`json.dumps` of the payload is kept as the opaque payload itself). -/
def ClaimOutcome.resultString : ClaimOutcome → String
  | .claimedSuccessfully payload => payload
  | .claimFailed => "Failed to process claim"
  | _ => "N/A"

/-- Counter deltas of one outcome: `Skipped` is the unclaimable bucket,
everything else the eligible bucket, with `Already Claimed` /
`Claimed Successfully` additionally bumping their own counters. -/
def ClaimOutcome.counters : ClaimOutcome → Counters
  | .skipped => ⟨1, 0, 0, 0, 1⟩
  | .errorCheckingClaims => ⟨1, 1, 0, 0, 0⟩
  | .alreadyClaimed => ⟨1, 1, 1, 0, 0⟩
  | .claimedSuccessfully _ => ⟨1, 1, 0, 1, 0⟩
  | .claimFailed => ⟨1, 1, 0, 0, 0⟩

/-- Phase 3 for one row (lines 357-425 / 535-601): an invalid row is
skipped entirely (no output row, no counters); a valid row produces the
`updated_row`, its counter deltas, and the list of `make_claim`
invocations it performed (as (accountId, chain) pairs). -/
def phase3Row (env : Env) (elig : List (String × Option ℚ))
    (hist : List (String × Option (List String))) (row : Row) :
    List ResultRow × Counters × List (String × String) :=
  let vault_account_id := pyStrip row.accountId
  let blockchain := pyStrip row.assetId
  let account_name := pyStrip row.accountName
  let original_claimable := pyStrip row.claimableAmount
  if vault_account_id = "" ∨ blockchain = "" then ([], Counters.zero, [])
  else
    let claimable_value := pyGet elig vault_account_id
    let outcome := phase3Decide claimable_value (pyGet hist vault_account_id)
      (env.claimResp vault_account_id blockchain)
    let claimable_amount : AmountField :=
      match claimable_value with
      | none => .orig original_claimable
      | some v => .updated v
    let eligibility_status :=
      match claimable_value with
      | none => "Unclaimable"
      | some _ => "Eligible"
    let updated_row : ResultRow :=
      { accountId := vault_account_id
        accountName := account_name
        assetId := blockchain
        claimableAmount := claimable_amount
        eligibilityStatus := eligibility_status
        claimStatus := outcome.1.statusString
        claimResult := outcome.1.resultString }
    ([updated_row], outcome.1.counters,
      if outcome.2 then [(vault_account_id, blockchain)] else [])

/-- Phase 3 sweep over a batch, in row order, accumulating `batch_data`,
the batch counters, and the `make_claim` call log. -/
def phase3Run (env : Env) (elig : List (String × Option ℚ))
    (hist : List (String × Option (List String))) :
    List Row → List ResultRow × Counters × List (String × String)
  | [] => ([], Counters.zero, [])
  | row :: rest =>
    let hd := phase3Row env elig hist row
    let tl := phase3Run env elig hist rest
    (hd.1 ++ tl.1, hd.2.1.add tl.2.1, hd.2.2 ++ tl.2.2)

/-- One batch of the per-record pipeline: the three sequential sweeps
(the two `check_and_clear_pool_if_needed` checkpoints between them touch
no per-record state). -/
def processBatch (env : Env) (batch : List Row) :
    List ResultRow × Counters × List (String × String) :=
  let eligibility_results := phase1 env batch
  let claims_history_results := phase2 env batch eligibility_results
  phase3Run env eligibility_results claims_history_results batch

/-- The orchestrator's running state: `all_updated_data`, the cumulative
counters, the `make_claim` call log, and the successive full sink
contents written at each flush (each flush rewrites the file with the
header plus all of `all_updated_data`, lines 443-446 / 616-619), paired
with the counters at that moment. -/
structure RunState where
  allRows : List ResultRow
  counters : Counters
  submitCalls : List (String × String)
  flushes : List (List ResultRow × Counters)
  deriving Repr

def RunState.init : RunState := ⟨[], Counters.zero, [], []⟩

/-- Process one batch and flush: extend `all_updated_data` with
`batch_data`, add the batch counters to the totals, and rewrite the sink
with the whole accumulated data (lines 428-448 / 604-621). -/
def applyBatch (env : Env) (st : RunState) (batch : List Row) : RunState :=
  let r := processBatch env batch
  let allRows := st.allRows ++ r.1
  let counters := st.counters.add r.2.1
  { allRows := allRows
    counters := counters
    submitCalls := st.submitCalls ++ r.2.2
    flushes := st.flushes ++ [(allRows, counters)] }

/-- One copy of the batch loop (`for i in range(0, len(all_rows),
batch_size)` with a positive step): fold `applyBatch` over the planned
batches in order. -/
def batchLoop (env : Env) (st : RunState) : List (List Row) → RunState
  | [] => st
  | b :: bs => batchLoop env (applyBatch env st b) bs

/-- Python slice `all_rows[:n]` for an arbitrary integer bound. -/
def pySliceTo (rows : List Row) (n : ℤ) : List Row :=
  if 0 ≤ n then rows.take n.toNat
  else rows.take (rows.length - (-n).toNat)

/-- Embeds `if max_rows: all_rows = all_rows[:max_rows]` (lines 266-267):
`None` and the falsy `0` leave the rows untouched. -/
def limitRows (maxRows : Option ℤ) (rows : List Row) : List Row :=
  match maxRows with
  | none => rows
  | some n => if n = 0 then rows else pySliceTo rows n

/-- Embeds `process_claims_csv` (lines 231-646), given the already-read rows:
apply the `max_rows` cap, then run the batch loop — twice, because the
source contains two consecutive copies of it (the `with tqdm` loop of
lines 274-461, then verbatim again at lines 464-634), the second
continuing with the accumulated data and totals of the first.  A zero
`batch_size` makes `range` raise `ValueError` before any batch; a
negative one makes both loops iterate zero times. -/
def process_claims_csv (env : Env) (rows : List Row) (batch_size : ℤ)
    (maxRows : Option ℤ) : Except String RunState :=
  let all_rows := limitRows maxRows rows
  if batch_size = 0 then .error "range() arg 3 must not be zero"
  else if batch_size < 0 then .ok RunState.init
  else
    let batches := planBatches batch_size.toNat all_rows
    .ok (batchLoop env (batchLoop env RunState.init batches) batches)

/-- Counter consistency: every processed row is either eligible or
unclaimable, and already-claimed plus claimed never exceed eligible. -/
def Counters.consistent (c : Counters) : Prop :=
  c.processed = c.eligible + c.unclaimable ∧
  c.alreadyClaimed + c.claimed ≤ c.eligible

/-- The run-state invariant checked after every batch: the counters (both
current and as snapshotted at every flush) are consistent, and every
emitted row is counted exactly once in `processed`. -/
def RunState.consistent (st : RunState) : Prop :=
  st.counters.consistent ∧ st.allRows.length = st.counters.processed ∧
  ∀ f ∈ st.flushes, (f.2).consistent ∧ f.1.length = f.2.processed

/-- Predicate `RunState.consistent` lifted over the `range`-step error case. -/
def runConsistent : Except String RunState → Prop
  | .error _ => True
  | .ok st => st.consistent

/-- Record A of the spec's end-to-end scenario: eligible, empty claims
history. -/
def rowA : Row := ⟨"A", "Alice", "ETH", "0"⟩

/-- Record B of the scenario: eligible, one-entry claims history. -/
def rowB : Row := ⟨"B", "Bob", "ETH", "0"⟩

/-- Record C of the scenario: remote eligibility value 0. -/
def rowC : Row := ⟨"C", "Carol", "ETH", "0"⟩

/-- The remote environment of the spec's end-to-end scenario: A has value
5 and no prior claims (submission succeeds), B has value 3 and one prior
claim, C has value 0. -/
def envScenario : Env where
  eligResp id _ :=
    if id = "A" then .ok (.num 5) else if id = "B" then .ok (.num 3) else .ok (.num 0)
  histResp id _ :=
    if id = "A" then .ok (some []) else if id = "B" then .ok (some ["prior-claim"]) else .ok (some [])
  claimResp id _ :=
    if id = "A" then .ok "PAYLOAD-A" else .error .unexpected

theorem planBatches_nil (bs : ℕ) : planBatches bs ([] : List α) = [] := by
  rw [planBatches]
  simp

theorem planBatches_cons (bs : ℕ) (xs : List α) (hx : xs ≠ []) (hb : bs ≠ 0) :
    planBatches bs xs = xs.take bs :: planBatches bs (xs.drop bs) := by
  rw [planBatches]
  have hno : ¬(xs.length = 0 ∨ bs = 0) := by
    rw [List.length_eq_zero]
    tauto
  simp only [hno, dite_false]

theorem planBatches_join (bs : ℕ) (hb : 0 < bs) (xs : List α) :
    (planBatches bs xs).flatten = xs := by
  induction xs using planBatches.induct bs with
  | case1 xs h =>
    rcases h with h | h
    · rw [List.length_eq_zero] at h; subst h; rw [planBatches_nil]; rfl
    · omega
  | case2 xs h ih =>
    simp only [not_or] at h
    have hx : xs ≠ [] := by
      intro he; rw [he] at h; simp at h
    rw [planBatches_cons bs xs hx h.2, List.flatten_cons, ih]
    exact List.take_append_drop bs xs

theorem planBatches_mem (bs : ℕ) (xs : List α) :
    ∀ b ∈ planBatches bs xs, b ≠ [] ∧ b.length ≤ bs := by
  induction xs using planBatches.induct bs with
  | case1 xs h =>
    rcases h with h | h
    · rw [List.length_eq_zero] at h; subst h; rw [planBatches_nil]; intro b hb; cases hb
    · rw [planBatches]; simp only [h, or_true, dite_true]
      intro b hb; cases hb
  | case2 xs h ih =>
    simp only [not_or] at h
    have hx : xs ≠ [] := by
      intro he; rw [he] at h; simp at h
    rw [planBatches_cons bs xs hx h.2]
    intro b hb
    rcases List.mem_cons.mp hb with hb | hb
    · subst hb
      refine ⟨?_, List.length_take_le bs xs⟩
      simp only [ne_eq, List.take_eq_nil_iff]
      tauto
    · exact ih b hb

theorem planBatches_dropLast (bs : ℕ) (xs : List α) :
    ∀ b ∈ (planBatches bs xs).dropLast, b.length = bs := by
  induction xs using planBatches.induct bs with
  | case1 xs h =>
    rcases h with h | h
    · rw [List.length_eq_zero] at h; subst h; rw [planBatches_nil]; intro b hb; cases hb
    · rw [planBatches]; simp only [h, or_true, dite_true]
      intro b hb; cases hb
  | case2 xs h ih =>
    simp only [not_or] at h
    have hx : xs ≠ [] := by
      intro he; rw [he] at h; simp at h
    rw [planBatches_cons bs xs hx h.2]
    by_cases hd : xs.drop bs = []
    · rw [hd, planBatches_nil]
      intro b hb; cases hb
    · have hrec : planBatches bs (xs.drop bs) ≠ [] := by
        rw [planBatches_cons bs (xs.drop bs) hd h.2]
        exact List.cons_ne_nil _ _
      rw [List.dropLast_cons_of_ne_nil hrec]
      intro b hb
      rcases List.mem_cons.mp hb with hb | hb
      · subst hb
        have hlen : bs ≤ xs.length := by
          by_contra hlt
          exact hd (List.drop_eq_nil_of_le (le_of_not_le hlt))
        simp [List.length_take, Nat.min_eq_left hlen]
      · exact ih b hb

/-- C6: for every record sequence and every positive batch size, the
batch planner's slices concatenate back to the input exactly (so no
record is skipped, duplicated, or reordered, and the slices are
contiguous and non-overlapping), every batch is non-empty of size at
most `bs`, and every batch except possibly the last has size exactly
`bs`. -/
theorem planBatches_partition (bs : ℕ) (xs : List Row) (hb : 0 < bs) :
    (planBatches bs xs).flatten = xs ∧
    (∀ b ∈ planBatches bs xs, b ≠ [] ∧ b.length ≤ bs) ∧
    (∀ b ∈ (planBatches bs xs).dropLast, b.length = bs) :=
  ⟨planBatches_join bs hb xs, planBatches_mem bs xs, planBatches_dropLast bs xs⟩

/-- Witness for C6: the partition property evaluated at batch size 2 on
the three scenario records. -/
theorem planBatches_partition_checked :
    0 < 2 ∧
    ((planBatches 2 [rowA, rowB, rowC]).flatten = [rowA, rowB, rowC] ∧
     (∀ b ∈ planBatches 2 [rowA, rowB, rowC], b ≠ [] ∧ b.length ≤ 2) ∧
     (∀ b ∈ (planBatches 2 [rowA, rowB, rowC]).dropLast, b.length = 2)) :=
  ⟨by decide, planBatches_partition 2 [rowA, rowB, rowC] (by decide)⟩

/-- C3: the phase-3 decision table, evaluated in order — Unclaimable
eligibility yields Skipped whatever the history; Eligible with Unknown
(failed) history yields ErrorCheckingClaims; Eligible with a non-empty
history yields AlreadyClaimed; Eligible with an empty history invokes
`submitClaim` and maps `Some(payload)` to ClaimedSuccessfully(payload)
and `None` to ClaimFailed.  The boolean component records whether
`make_claim` was invoked: only the last row of the table performs the
remote call. -/
theorem phase3_decision_table :
    (∀ (h : Option (List String)) (r : Resp String),
        phase3Decide none h r = (.skipped, false)) ∧
    (∀ (v : ℚ) (r : Resp String),
        phase3Decide (some v) none r = (.errorCheckingClaims, false)) ∧
    (∀ (v : ℚ) (e : String) (t : List String) (r : Resp String),
        phase3Decide (some v) (some (e :: t)) r = (.alreadyClaimed, false)) ∧
    (∀ (v : ℚ) (r : Resp String),
        phase3Decide (some v) (some []) r =
          (match make_claim r with
           | some payload => (.claimedSuccessfully payload, true)
           | none => (.claimFailed, true))) := by
  refine ⟨fun h r => rfl, fun v r => rfl, fun v e t r => by simp [phase3Decide], fun v r => ?_⟩
  cases hr : make_claim r <;> simp [phase3Decide, hr]

/-- C4: eligibility classification — `check_address_eligibility` returns
`Some v` exactly when the response is a well-formed body whose `value`
field is a number `v > 0`; a zero or negative value, a null or absent
field, a non-numeric value and every failure branch all return `None`;
and phase 1 stores exactly this result for a record with non-empty
(stripped) accountId and chain. -/
theorem eligibility_positive_value :
    (∀ (resp : Resp EligValue) (v : ℚ),
        check_address_eligibility resp = some v ↔ resp = .ok (.num v) ∧ 0 < v) ∧
    (∀ v : ℚ, check_address_eligibility (.ok (.num v)) =
        if 0 < v then some v else none) ∧
    check_address_eligibility (.ok (.num 0)) = none ∧
    check_address_eligibility (.ok (.num (-5))) = none ∧
    check_address_eligibility (.ok .null) = none ∧
    check_address_eligibility (.ok .absent) = none ∧
    check_address_eligibility (.ok .nonNumeric) = none ∧
    (∀ f : Failure, check_address_eligibility (.error f) = none) ∧
    (∀ (env : Env) (row : Row),
        (pyStrip row.accountId = "" ∨ pyStrip row.assetId = "") ∨
        phase1 env [row] =
          [(pyStrip row.accountId,
            check_address_eligibility (env.eligResp (pyStrip row.accountId) (pyStrip row.assetId)))]) := by
  refine ⟨?_, ?_, by decide, by decide, rfl, rfl, rfl, fun f => rfl, ?_⟩
  · intro resp v
    constructor
    · intro hsome
      match resp with
      | .ok (.num w) =>
        by_cases hw : w > 0
        · simp [check_address_eligibility, hw] at hsome
          subst hsome
          exact ⟨rfl, hw⟩
        · simp [check_address_eligibility, hw] at hsome
      | .ok .absent => simp [check_address_eligibility] at hsome
      | .ok .null => simp [check_address_eligibility] at hsome
      | .ok .nonNumeric => simp [check_address_eligibility] at hsome
      | .error f => simp [check_address_eligibility] at hsome
    · rintro ⟨hresp, hv⟩
      subst hresp
      simp [check_address_eligibility, hv]
  · intro v
    by_cases hv : 0 < v <;> simp [check_address_eligibility, hv]
  · intro env row
    by_cases h1 : pyStrip row.accountId = ""
    · exact Or.inl (Or.inl h1)
    · by_cases h2 : pyStrip row.assetId = ""
      · exact Or.inl (Or.inr h2)
      · right
        simp [phase1, dictSet, h1, h2]

/-- C7: each of the three per-record client operations maps every
classified failure — non-200 status, raised HTTP error, transport error,
malformed body, data conversion error, unexpected exception — to the
`None` result; in the embedding the operations are total functions, so
no exception ever crosses the boundary to the caller. -/
theorem clients_swallow_failures :
    ∀ f : Failure,
      check_address_eligibility (.error f) = none ∧
      check_claims_history (.error f) = none ∧
      make_claim (.error f) = none :=
  fun _ => ⟨rfl, rfl, rfl⟩

/-- C5 as stated is false: with `poolMaxSize = 200`,
`thresholdPercent = 80` the threshold is 160 and the comparison is `>=`,
so `totalInstances = 160` does trigger a pool clear — the gate does not
return false there. -/
theorem pressure_gate_claim_false :
    ¬ check_and_clear_pool_if_needed (some ⟨some 160⟩) true 200 80 = false := by
  have h80 : ((200:ℤ):ℚ) * 80 / 100 = 160 := by norm_num
  simp only [check_and_clear_pool_if_needed, h80]
  decide

/-- C5 amended: with `poolMaxSize = 200` and `thresholdPercent = 80`
(threshold 160), `totalInstances = 160` does trigger a clear (the
comparison is `>=`) while `totalInstances = 159` does not; with
`thresholdPercent = 50` (threshold 100), `totalInstances = 160` triggers
a clear. -/
theorem pressure_gate_thresholds :
    check_and_clear_pool_if_needed (some ⟨some 160⟩) true 200 80 = true ∧
    check_and_clear_pool_if_needed (some ⟨some 159⟩) true 200 80 = false ∧
    check_and_clear_pool_if_needed (some ⟨some 160⟩) true 200 50 = true := by
  have h80 : ((200:ℤ):ℚ) * 80 / 100 = 160 := by norm_num
  have h50 : ((200:ℤ):ℚ) * 50 / 100 = 100 := by norm_num
  refine ⟨?_, ?_, ?_⟩ <;> simp only [check_and_clear_pool_if_needed, h80, h50] <;> decide

/-- C10: a `max_rows` of 0 is falsy in `if max_rows:`, so the cap is
ignored and the run is identical to one with no cap at all. -/
theorem max_rows_zero_is_no_cap :
    ∀ (env : Env) (rows : List Row) (bs : ℤ),
      process_claims_csv env rows bs (some 0) = process_claims_csv env rows bs none :=
  fun _ _ _ => rfl

theorem Counters.consistent_zero : Counters.zero.consistent := by
  constructor <;> rfl

theorem Counters.consistent_add {a b : Counters} (ha : a.consistent) (hb : b.consistent) :
    (a.add b).consistent := by
  obtain ⟨ha1, ha2⟩ := ha
  obtain ⟨hb1, hb2⟩ := hb
  constructor <;> simp only [Counters.add] <;> omega

theorem ClaimOutcome.counters_consistent (o : ClaimOutcome) :
    o.counters.consistent ∧ o.counters.processed = 1 := by
  cases o <;> simp [ClaimOutcome.counters, Counters.consistent]

theorem phase3Row_consistent (env : Env) (elig : List (String × Option ℚ))
    (hist : List (String × Option (List String))) (row : Row) :
    (phase3Row env elig hist row).2.1.consistent ∧
    (phase3Row env elig hist row).1.length = (phase3Row env elig hist row).2.1.processed := by
  rw [phase3Row]
  by_cases hv : pyStrip row.accountId = "" ∨ pyStrip row.assetId = ""
  · simp only [hv, if_true]
    exact ⟨Counters.consistent_zero, rfl⟩
  · simp only [hv, if_false]
    refine ⟨(ClaimOutcome.counters_consistent _).1, ?_⟩
    simp [(ClaimOutcome.counters_consistent _).2]

theorem phase3Run_consistent (env : Env) (elig : List (String × Option ℚ))
    (hist : List (String × Option (List String))) (rows : List Row) :
    (phase3Run env elig hist rows).2.1.consistent ∧
    (phase3Run env elig hist rows).1.length = (phase3Run env elig hist rows).2.1.processed := by
  induction rows with
  | nil => exact ⟨Counters.consistent_zero, rfl⟩
  | cons row rest ih =>
    obtain ⟨hc, hl⟩ := ih
    obtain ⟨hc', hl'⟩ := phase3Row_consistent env elig hist row
    refine ⟨Counters.consistent_add hc' hc, ?_⟩
    simp only [phase3Run, List.length_append, Counters.add, hl, hl']

theorem processBatch_consistent (env : Env) (batch : List Row) :
    (processBatch env batch).2.1.consistent ∧
    (processBatch env batch).1.length = (processBatch env batch).2.1.processed :=
  phase3Run_consistent env _ _ batch

theorem applyBatch_consistent {env : Env} {st : RunState} (h : st.consistent)
    (batch : List Row) : (applyBatch env st batch).consistent := by
  obtain ⟨hc, hl, hf⟩ := h
  obtain ⟨hbc, hbl⟩ := processBatch_consistent env batch
  have hc' : (st.counters.add (processBatch env batch).2.1).consistent :=
    Counters.consistent_add hc hbc
  have hl' : (st.allRows ++ (processBatch env batch).1).length =
      (st.counters.add (processBatch env batch).2.1).processed := by
    simp only [List.length_append, Counters.add, hl, hbl]
  refine ⟨hc', hl', ?_⟩
  intro f hf'
  rcases List.mem_append.mp hf' with hmem | hmem
  · exact hf f hmem
  · rcases List.mem_singleton.mp hmem with rfl
    exact ⟨hc', hl'⟩

theorem batchLoop_consistent {env : Env} {st : RunState} (h : st.consistent)
    (batches : List (List Row)) : (batchLoop env st batches).consistent := by
  induction batches generalizing st with
  | nil => exact h
  | cons b bs ih => exact ih (applyBatch_consistent h b)

theorem RunState.init_consistent : RunState.init.consistent := by
  refine ⟨Counters.consistent_zero, rfl, ?_⟩
  intro f hf
  cases hf

/-- C9: for every environment, input, batch size and row cap, the run's
counters are consistent — `processed = eligible + unclaimable` and
`alreadyClaimed + claimed ≤ eligible` — both in the final summary and in
the snapshot taken at every batch flush, and every emitted ResultRow is
counted exactly once in `processed` (the emitted row count equals the
`processed` counter, at the end and at every flush). -/
theorem run_counters_consistent :
    ∀ (env : Env) (rows : List Row) (bs : ℤ) (maxRows : Option ℤ),
      runConsistent (process_claims_csv env rows bs maxRows) := by
  intro env rows bs maxRows
  rw [process_claims_csv]
  by_cases h0 : bs = 0
  · simp only [h0, if_true]
    trivial
  · simp only [h0, if_false]
    by_cases hneg : bs < 0
    · simp only [hneg, if_true]
      exact RunState.init_consistent
    · simp only [hneg, if_false]
      exact batchLoop_consistent (batchLoop_consistent RunState.init_consistent _) _

theorem planScenario50 : planBatches 50 [rowA, rowB, rowC] = [[rowA, rowB, rowC]] := by
  rw [planBatches_cons 50 _ (by decide) (by decide)]
  rw [show List.drop 50 [rowA, rowB, rowC] = [] from rfl]
  rw [planBatches_nil]
  decide

theorem runScenario50 :
    process_claims_csv envScenario [rowA, rowB, rowC] 50 none =
      .ok (batchLoop envScenario (batchLoop envScenario RunState.init [[rowA, rowB, rowC]])
        [[rowA, rowB, rowC]]) := by
  rw [process_claims_csv]
  norm_num [limitRows]
  rw [show Int.toNat 50 = 50 from rfl, planScenario50]

/-- C1 does not hold of the code: on the spec's 3-record scenario (A
eligible with empty history, B eligible with a one-entry history, C with
remote value 0) the duplicated batch loop of `process_claims_csv`
processes every record twice, so the run issues two `submitClaim` calls
(both for A), leaves six ResultRows in the sink (the input sequence
twice over), and ends with counters processed=6, eligible=4,
alreadyClaimed=2, claimed=2, unclaimable=2 — double the claimed
eligible=2, alreadyClaimed=1, claimed=1, unclaimable=1. -/
theorem scenario_run_doubles_everything :
    ((process_claims_csv envScenario [rowA, rowB, rowC] 50 none).toOption.map
      (fun st => (st.submitCalls, st.allRows.length,
        st.allRows.map (fun r => r.accountId), st.counters))) =
    some ([("A", "ETH"), ("A", "ETH")], 6, ["A", "B", "C", "A", "B", "C"],
      { processed := 6, eligible := 4, alreadyClaimed := 2, claimed := 2, unclaimable := 2 }) := by
  rw [runScenario50]
  decide

theorem planScenario2 : planBatches 2 [rowA, rowB, rowC] = [[rowA, rowB], [rowC]] := by
  rw [planBatches_cons 2 _ (by decide) (by decide)]
  rw [show List.drop 2 [rowA, rowB, rowC] = [rowC] from rfl]
  rw [planBatches_cons 2 _ (by decide) (by decide)]
  rw [show List.drop 2 [rowC] = [] from rfl]
  rw [planBatches_nil]
  decide

theorem runScenario2 :
    process_claims_csv envScenario [rowA, rowB, rowC] 2 none =
      .ok (batchLoop envScenario (batchLoop envScenario RunState.init [[rowA, rowB], [rowC]])
        [[rowA, rowB], [rowC]]) := by
  rw [process_claims_csv]
  norm_num [limitRows]
  rw [show Int.toNat 2 = 2 from rfl, planScenario2]

/-- C2 does not hold of the code: each flush does fully rewrite the sink
with all rows accumulated so far, but because the batch loop is
duplicated, the second pass's flushes repeat the input's rows.  On the
3-record scenario with batch size 2 the third flush (the second pass's
first) writes rows for A, B, C, A, B: record A's row appears twice even
though the input holds a single record A, so the sink is neither
duplicate-free nor a prefix in input record order. -/
theorem third_flush_duplicates_rows :
    ((process_claims_csv envScenario [rowA, rowB, rowC] 2 none).toOption.bind
        (fun st => st.flushes.get? 2)).map
        (fun f => (f.1.map (fun r => r.accountId),
          (f.1.filter (fun r => r.accountId == "A")).length)) =
      some (["A", "B", "C", "A", "B"], 2) ∧
    ([rowA, rowB, rowC].filter (fun r => pyStrip r.accountId == "A")).length = 1 := by
  constructor
  · rw [runScenario2]
    decide
  · decide

/-- C8 does not hold of the code: no component validates the batch size.
With `batch_size = -1` both copies of the batch loop iterate zero times
(`range` with a negative step is empty), so `process_claims_csv` returns
normally with the initial state — zero rows processed, no remote call,
no sink write, and the final summary still printed — instead of
rejecting the configuration; with `batch_size = 0` the `range` call
raises an uncaught `ValueError`, not a configuration diagnostic. -/
theorem batch_size_not_validated :
    process_claims_csv envScenario [rowA, rowB, rowC] (-1) none = .ok RunState.init ∧
    process_claims_csv envScenario [rowA, rowB, rowC] 0 none =
      .error "range() arg 3 must not be zero" :=
  ⟨rfl, rfl⟩

end ClaimsProcessor
